import Mathlib

/-!
Verification of the OncoSight patient-record normalization and
longitudinal-comparison pipeline.

This file gives a shallow embedding, in Lean 4, of the core data-handling
logic of the repository:

* the scalar and flag normalizers of the CSV data service
  (`toBoolean`, `toNumber`, `sanitize`, `parseBsa`, `parseBmi`),
* the embedded-collection parsers (`parseJsonArray`, `mapTimelineEvents`,
  `mapTumorSizePoints`, `mapBiomarkerPoints`, `mapDocumentLinks`,
  `mapRadiologyDocuments`, `parsePathologyDetails`),
* the row-to-patient assembler (`mapRowToPatient`) and the batch loader
  (`loadPatients`),
* the deterministic insight fallback and the LLM reconciliation wrapper
  (`buildFallbackInsights`, `generatePatientInsights`),
* the pathology comparison logic of the investigations view
  (`sortReports`, `gradeSeverity`, `numberFromString`,
  `generateStructuralDeltas`),
* the per-patient insight promise cache (`getPatientInsightsCall`).

JavaScript-specific semantics (string truthiness, the logical-or fallback
chains, strict `!==` comparison between possibly `undefined` strings,
`Array.prototype.sort` with a numeric comparator, first-match regular
expressions) are modelled explicitly by small helper functions whose names
start with `js`.  Machine floating point is modelled by `Rat`; the numeric
strings compared by the code are short decimal literals for which rational
and double arithmetic agree.  External capabilities (the Gemini client,
`JSON.parse` of arbitrary text, `Date.parse`) are modelled as explicit
parameters or outcome types, since their implementations live outside the
repository.
-/

namespace OncoSight

/-- JavaScript truthiness of a possibly-undefined string: `undefined` and
the empty string are falsy, every other string is truthy. -/
def jsTruthy : Option String → Bool
  | none => false
  | some s => s ≠ ""

/-- JavaScript `a || b` where `a` is a plain (never-undefined) string:
the empty string is falsy and selects the fallback. -/
def jsOr (a b : String) : String :=
  if a = "" then b else a

/-- JavaScript `a || b` where `a` is a possibly-undefined string and `b`
is a string default. -/
def jsOrDefault (a : Option String) (b : String) : String :=
  match a with
  | none => b
  | some s => if s = "" then b else s

/-- JavaScript `a || b` on two possibly-undefined strings. -/
def jsOrOpt (a b : Option String) : Option String :=
  if jsTruthy a then a else b

/-- JS `s.trim()` on the character list: strip leading and trailing
whitespace. -/
def jsTrim (s : String) : String :=
  ⟨((s.data.dropWhile Char.isWhitespace).reverse.dropWhile Char.isWhitespace).reverse⟩

/-- JS `s.toLowerCase()` restricted to ASCII case folding, which covers
every token the pipeline compares. -/
def jsToLower (s : String) : String :=
  ⟨s.data.map Char.toLower⟩

/-- Whether `needle` occurs as a contiguous substring of `hay`
(both as character lists); models `RegExp.test` for a literal pattern. -/
def containsSub (hay needle : String) : Bool :=
  hay.data.tails.any (fun t => needle.data.isPrefixOf t)

/-- Case-insensitive substring test; models a `/literal/i` regular
expression test. -/
def containsCI (hay needle : String) : Bool :=
  containsSub (jsToLower hay) (jsToLower needle)

/-- Case-insensitive alternation test; models `/a|b|c/i.test(hay)`. -/
def containsAnyCI (hay : String) (needles : List String) : Bool :=
  needles.any (containsCI hay)

/-- Boolean flag normalizer of the data service.  JS source:
`if (!value) return null;` then lower-cased trim is matched with
`startsWith('yes') || === 'y' || === 'true'` for `true` and
`startsWith('no') || === 'n' || === 'false'` for `false`, else `null`. -/
def toBoolean (value : Option String) : Option Bool :=
  match value with
  | none => none
  | some v =>
    if v = "" then none
    else
      let normalized := jsToLower (jsTrim v)
      if normalized.data.take 3 = "yes".data ∨ normalized = "y" ∨ normalized = "true" then
        some true
      else if normalized.data.take 2 = "no".data ∨ normalized = "n" ∨ normalized = "false" then
        some false
      else
        none

/-- Digits of a character list interpreted as a base-10 natural number. -/
def digitsToNat (ds : List Char) : Nat :=
  ds.foldl (fun acc c => 10 * acc + (c.toNat - '0'.toNat)) 0

/-- An exact decimal number `mantissa / 10 ^ scale`, the value of a
parsed numeric literal.  The numeric strings the pipeline compares are
short decimal literals, for which this model and IEEE doubles order and
compare identically. -/
structure JsNumber where
  mantissa : Int
  scale : Nat
deriving DecidableEq

/-- Strict order on parsed numbers, by cross-multiplied mantissas. -/
def jsNumLt (a b : JsNumber) : Bool :=
  a.mantissa * ((10 : Int) ^ b.scale) < b.mantissa * ((10 : Int) ^ a.scale)

/-- Value of a matched decimal literal `[-+]? intDigits [. fracDigits]`. -/
def decimalValue (neg : Bool) (intDigits fracDigits : List Char) : JsNumber :=
  let magnitude : Nat := digitsToNat intDigits * 10 ^ fracDigits.length + digitsToNat fracDigits
  { mantissa := if neg then -(magnitude : Int) else (magnitude : Int)
    scale := fracDigits.length }

/-- Greedy match of the pattern `[-+]?\d*\.?\d+` anchored at the start of
`cs`, returning the numeric value of the match. -/
def matchNumberAt (cs : List Char) : Option JsNumber :=
  let signAndRest : Bool × List Char :=
    match cs with
    | '-' :: t => (true, t)
    | '+' :: t => (false, t)
    | _ => (false, cs)
  let neg := signAndRest.1
  let body := signAndRest.2
  let intDigits := body.takeWhile Char.isDigit
  let afterInt := body.dropWhile Char.isDigit
  match afterInt with
  | '.' :: t =>
    let fracDigits := t.takeWhile Char.isDigit
    if fracDigits = [] then
      if intDigits = [] then none else some (decimalValue neg intDigits [])
    else
      some (decimalValue neg intDigits fracDigits)
  | _ =>
    if intDigits = [] then none else some (decimalValue neg intDigits [])

/-- Leftmost match of `[-+]?\d*\.?\d+` in a character list. -/
def firstNumberMatch : List Char → Option JsNumber
  | [] => none
  | c :: rest =>
    match matchNumberAt (c :: rest) with
    | some q => some q
    | none => firstNumberMatch rest

/-- Model of JS `Number.parseFloat` restricted to the shapes the pipeline
feeds it: leading whitespace, an optional sign, and a decimal literal with
optional fraction and exponent.  Inputs that do not start with a numeric
literal give `none` (parseFloat `NaN`). -/
def jsParseFloat (s : String) : Option JsNumber :=
  let cs := s.data.dropWhile (fun c => c.isWhitespace)
  let signAndRest : Bool × List Char :=
    match cs with
    | '-' :: t => (true, t)
    | '+' :: t => (false, t)
    | _ => (false, cs)
  let neg := signAndRest.1
  let body := signAndRest.2
  let intDigits := body.takeWhile Char.isDigit
  let afterInt := body.dropWhile Char.isDigit
  let mantissaAndRest : Option (JsNumber × List Char) :=
    match afterInt with
    | '.' :: t =>
      let fracDigits := t.takeWhile Char.isDigit
      if intDigits = [] ∧ fracDigits = [] then none
      else some (decimalValue neg intDigits fracDigits, t.dropWhile Char.isDigit)
    | _ =>
      if intDigits = [] then none else some (decimalValue neg intDigits [], afterInt)
  match mantissaAndRest with
  | none => none
  | some (m, rest) =>
    match rest with
    | 'e' :: t => some (applyExponent m t)
    | 'E' :: t => some (applyExponent m t)
    | _ => some m
where
  /-- Apply an optional exponent suffix `[-+]?\d+` to the mantissa;
  a malformed exponent is ignored, as `parseFloat` stops reading there. -/
  applyExponent (m : JsNumber) (t : List Char) : JsNumber :=
    let signAndRest : Bool × List Char :=
      match t with
      | '-' :: u => (true, u)
      | '+' :: u => (false, u)
      | _ => (false, t)
    let expDigits := signAndRest.2.takeWhile Char.isDigit
    if expDigits = [] then m
    else if signAndRest.1 then { m with scale := m.scale + digitsToNat expDigits }
    else { m with mantissa := m.mantissa * ((10 : Int) ^ digitsToNat expDigits) }

/-- Numeric cell normalizer of the data service.  JS source:
`if (!value) return null; const parsed = Number.parseFloat(value);
return Number.isFinite(parsed) ? parsed : null;`. -/
def toNumber (value : Option String) : Option JsNumber :=
  match value with
  | none => none
  | some v => if v = "" then none else jsParseFloat v

/-- A parsed JSON value, the result of a successful `JSON.parse`. -/
inductive Json where
  | null : Json
  | bool (b : Bool) : Json
  | num (q : JsNumber) : Json
  | str (s : String) : Json
  | arr (elements : List Json) : Json
  | obj (fields : List (String × Json)) : Json

/-- Property access `item.key` on a parsed JSON value.  Non-object values
yield `undefined`; a genuinely `null` item would raise a `TypeError` in
the source, a path no caller exercises, and is modelled as `undefined`. -/
def getField (j : Json) (key : String) : Option Json :=
  match j with
  | .obj fields => fields.lookup key
  | _ => none

/-- The string-typed reading of a property: models
`typeof item.k === 'string' ? item.k : undefined`. -/
def asString (v : Option Json) : Option String :=
  match v with
  | some (.str s) => some s
  | _ => none

/-- Decimal rendering of a JSON number, value-compatible with JS
`String(x)` for the decimal literals JSON can carry (its only consumer
re-parses the digits with `parseFloat`). -/
def jsNumberToString (q : JsNumber) : String :=
  if q.scale = 0 then toString q.mantissa
  else
    let magnitude := q.mantissa.natAbs
    let intPart := magnitude / 10 ^ q.scale
    let fracPart := magnitude % 10 ^ q.scale
    let fracDigits := toString fracPart
    let padding := String.mk (List.replicate (q.scale - fracDigits.length) '0')
    (if q.mantissa < 0 then "-" else "") ++ toString intPart ++ "." ++ padding ++ fracDigits

mutual

/-- JS `String(x)` coercion of a parsed JSON value. -/
def jsStringCoerce : Json → String
  | .null => "null"
  | .bool true => "true"
  | .bool false => "false"
  | .num q => jsNumberToString q
  | .str s => s
  | .arr xs => String.intercalate "," (jsStringCoerceList xs)
  | .obj _ => "[object Object]"

/-- Pointwise `String(x)` coercion of the elements of a JSON array. -/
def jsStringCoerceList : List Json → List String
  | [] => []
  | j :: rest => jsStringCoerce j :: jsStringCoerceList rest

end

/-- JS `item.k1 ?? item.k2 ?? ...`: the first property that is neither
absent nor `null`. -/
def coalesceFields (item : Json) : List String → Option Json
  | [] => none
  | k :: rest =>
    match getField item k with
    | some .null => coalesceFields item rest
    | some v => some v
    | none => coalesceFields item rest

/-- JS `String(item.k1 ?? item.k2 ?? '')` as fed to `toNumber`. -/
def coalesceToString (item : Json) (keys : List String) : String :=
  match coalesceFields item keys with
  | none => ""
  | some v => jsStringCoerce v

/-- Embedded-collection parser of the data service: parse a JSON column,
return the elements when the result is an array, and an empty list when
the cell is blank, the JSON is malformed (modelled by the `jsonParse`
parameter returning `none`), or the parse result is not an array. -/
def parseJsonArray (jsonParse : String → Option Json) (value : Option String) : List Json :=
  match value with
  | none => []
  | some v =>
    if v = "" ∨ v.trim = "" then []
    else
      match jsonParse v with
      | some (.arr elements) => elements
      | _ => []

/-- One event of the treatment timeline. -/
structure TimelineEvent where
  line : Option JsNumber
  regimen : Option String
  startDate : Option String
  endDate : Option String
  response : Option String
  reasonForStopping : Option String
  toxicities : Option String

/-- One tumor-size measurement. -/
structure TumorSizePoint where
  date : Option String
  sumOfDiametersMm : Option JsNumber
deriving DecidableEq

/-- One biomarker measurement. -/
structure BiomarkerPoint where
  date : Option String
  markerName : Option String
  value : Option JsNumber
deriving DecidableEq

/-- A dated link to an external document. -/
structure DocumentLink where
  date : Option String
  summary : Option String
  link : Option String

/-- A dated radiology document. -/
structure RadiologyDocument where
  date : Option String
  modality : Option String
  summary : Option String
  link : Option String

/-- One structured pathology report. -/
structure PathologyDetails where
  procedure : Option String
  date : Option String
  site : Option String
  diagnosisText : Option String
  histology : Option Json
  ihcPanel : Option Json
  raw : Json

/-- `mapTimelineEvents` of the data service. -/
def mapTimelineEvents (jsonParse : String → Option Json) (value : Option String) :
    List TimelineEvent :=
  (parseJsonArray jsonParse value).map (fun item =>
    { line := toNumber (some (coalesceToString item ["line", "lineNumber"]))
      regimen := asString (getField item "regimen")
      startDate := (asString (getField item "start_date")).orElse
        (fun _ => asString (getField item "startDate"))
      endDate := (asString (getField item "end_date")).orElse
        (fun _ => asString (getField item "endDate"))
      response := asString (getField item "response")
      reasonForStopping := (asString (getField item "reason_for_stopping")).orElse
        (fun _ => asString (getField item "reasonForStopping"))
      toxicities := asString (getField item "toxicities") })

/-- `mapTumorSizePoints` of the data service. -/
def mapTumorSizePoints (jsonParse : String → Option Json) (value : Option String) :
    List TumorSizePoint :=
  (parseJsonArray jsonParse value).map (fun item =>
    { date := asString (getField item "date")
      sumOfDiametersMm :=
        toNumber (some (coalesceToString item ["sum_of_diameters_mm", "sumOfDiametersMm"])) })

/-- `mapBiomarkerPoints` of the data service. -/
def mapBiomarkerPoints (jsonParse : String → Option Json) (value : Option String) :
    List BiomarkerPoint :=
  (parseJsonArray jsonParse value).map (fun item =>
    { date := asString (getField item "date")
      markerName := (asString (getField item "marker_name")).orElse
        (fun _ => asString (getField item "markerName"))
      value := toNumber (some (coalesceToString item ["value"])) })

/-- `mapDocumentLinks` of the data service. -/
def mapDocumentLinks (jsonParse : String → Option Json) (value : Option String) :
    List DocumentLink :=
  (parseJsonArray jsonParse value).map (fun item =>
    { date := asString (getField item "date")
      summary := asString (getField item "summary")
      link := asString (getField item "link") })

/-- `mapRadiologyDocuments` of the data service. -/
def mapRadiologyDocuments (jsonParse : String → Option Json) (value : Option String) :
    List RadiologyDocument :=
  (parseJsonArray jsonParse value).map (fun item =>
    { date := asString (getField item "date")
      modality := asString (getField item "modality")
      summary := asString (getField item "summary")
      link := asString (getField item "link") })

/-- The object-typed reading of a property: models
`typeof entry.k === 'object' ? entry.k : undefined` (in JS, `null`,
arrays and plain objects all have `typeof` `'object'`). -/
def asObjectTyped (v : Option Json) : Option Json :=
  match v with
  | some .null => some .null
  | some (.arr xs) => some (.arr xs)
  | some (.obj fields) => some (.obj fields)
  | _ => none

/-- Whether a parsed JSON entry survives the pathology-details filter
`entry !== null && typeof entry === 'object'`. -/
def isObjectEntry : Json → Bool
  | .obj _ => true
  | .arr _ => true
  | _ => false

/-- `parsePathologyDetails` of the data service: parse the column, wrap a
non-array parse result as a singleton, keep object-typed entries, and read
the report fields with snake/camel alias fallbacks. -/
def parsePathologyDetails (jsonParse : String → Option Json) (value : Option String) :
    List PathologyDetails :=
  match value with
  | none => []
  | some v =>
    if v = "" ∨ v.trim = "" then []
    else
      match jsonParse v with
      | none => []
      | some parsed =>
        let entries :=
          match parsed with
          | .arr xs => xs
          | other => [other]
        (entries.filter isObjectEntry).map (fun entry =>
          let histology := asObjectTyped (getField entry "histology")
          let snakeIhc := asObjectTyped (getField entry "ihc_panel")
          let camelIhc := asObjectTyped (getField entry "ihcPanel")
          { procedure := asString (getField entry "procedure")
            date := asString (getField entry "date")
            site := asString (getField entry "site")
            diagnosisText := (asString (getField entry "diagnosisText")).orElse
              (fun _ => asString (getField entry "diagnosis_text"))
            histology := histology
            ihcPanel :=
              match snakeIhc with
              | some .null => camelIhc
              | none => camelIhc
              | some v => some v
            raw := entry })

/-- `sanitize` of the data service: `value ? value.trim() : ''`. -/
def sanitize (value : Option String) : String :=
  match value with
  | none => ""
  | some s => if s = "" then "" else jsTrim s

/-- `parseBsa` of the data service. -/
def parseBsa (value : Option String) : Option String :=
  match value with
  | none => none
  | some v =>
    if v = "" then none
    else
      let trimmed := jsTrim v
      if trimmed = "" ∨ jsToLower trimmed = "n/a" then none else some trimmed

/-- `parseBmi` of the data service (textually identical to `parseBsa`). -/
def parseBmi (value : Option String) : Option String :=
  match value with
  | none => none
  | some v =>
    if v = "" then none
    else
      let trimmed := jsTrim v
      if trimmed = "" ∨ jsToLower trimmed = "n/a" then none else some trimmed

/-- The canonical patient aggregate assembled from one CSV row. -/
structure Patient where
  patientId : String
  name : String
  dateOfBirth : Option String
  birthDate : Option String
  bmi : Option String
  bsa : Option String
  age : Option JsNumber
  sex : String
  smokingStatus : String
  performanceStatus : String
  diabetes : String
  hypertension : String
  heartDisease : String
  copdAsthma : String
  otherRelevantComorbidities : String
  primaryDiagnosis : String
  histologicType : String
  tumorGrade : String
  diagnosisDate : String
  initialTnmStage : String
  currentTnmStage : String
  metastaticStatus : String
  metastaticSites : String
  recurrenceStatus : String
  pathologyDiagnosisText : String
  histopathologicFeatures : String
  marginStatus : String
  ihcMarkers : String
  ambiguousDiagnosisFlag : Option Bool
  egfrMutation : String
  alkRearrangement : String
  ros1Rearrangement : String
  krasMutation : String
  brafMutation : String
  metExon14Skipping : String
  retRearrangement : String
  her2Mutation : String
  ntrkFusion : String
  pdL1Expression : String
  tumorMutationalBurden : String
  microsatelliteInstability : String
  ctdnaFindings : String
  actionableMutationSummary : String
  newMutationsOverTime : String
  treatmentPlanSummary : String
  surgicalTreatments : String
  radiationTreatments : String
  latestCtChest : String
  latestPetCt : String
  latestBrainMri : String
  newLesions : Option Bool
  radiologyImpressionKeywords : String
  renalDysfunctionFlag : Option Bool
  liverDysfunctionFlag : Option Bool
  cbcValues : String
  cmpValues : String
  electrolytes : String
  abnormalLabFlags : String
  longitudinalLaboratoryFlagTrends : String
  overallDiseaseCourseSummary : String
  stageChangesOverTime : String
  lastClinicalEncounterDate : String
  pathologyReportLinks : String
  genomicReportLinks : String
  radiologyReportLinks : String
  providerNoteLinks : String
  currentLineOfTherapy : String
  priorTherapies : String
  regimenDetails : String
  treatmentStartAndEndDates : String
  responsePerLine : String
  treatmentResponseTimeline : String
  reasonsForTreatmentChange : String
  treatmentRelatedToxicities : String
  radiologyTrend : String
  radiologyTrendsOverTime : String
  recistMeasurements : String
  lesionCountSize : String
  cea : String
  ca199 : String
  otherTumorMarkers : String
  longitudinalBiomarkerTrends : String
  biomarkerTrendsOverTime : String
  treatmentTimeline : List TimelineEvent
  tumorSizeTrend : List TumorSizePoint
  biomarkerTrend : List BiomarkerPoint
  pathologyReports : List DocumentLink
  genomicReports : List DocumentLink
  radiologyReports : List RadiologyDocument
  providerNotes : List DocumentLink
  pathologyDetails : Option (List PathologyDetails)
  unlabeledColumn : String

/-- One raw CSV row: the papaparse header-keyed record, as an ordered
association list of header name to cell text. -/
abbrev RawRow := List (String × String)

/-- The columns run through the boolean normalizer. -/
def BOOLEAN_COLUMNS : List String :=
  ["Ambiguous diagnosis flag", "New lesions (yes/no)",
   "Renal dysfunction flag", "Liver dysfunction flag"]

/-- JS `a ?? b ?? ...` over possibly-undefined cells: the first cell that
is present, even when it is the empty string. -/
def firstPresent : List (Option String) → Option String
  | [] => none
  | some s :: _ => some s
  | none :: rest => firstPresent rest

/-- `mapRowToPatient` of the data service: assemble one `Patient` from a
raw row, trimming scalar cells, normalizing the four boolean columns, and
parsing the JSON-encoded collection columns. -/
def mapRowToPatient (jsonParse : String → Option Json) (row : RawRow) : Patient :=
  let get := fun (key : String) => sanitize (row.lookup key)
  let bool := fun (key : String) =>
    if key ∈ BOOLEAN_COLUMNS then toBoolean (row.lookup key) else none
  let rawBsa := firstPresent
    [row.lookup "bsa", row.lookup "BSA", row.lookup "Body Surface Area (BSA)",
     row.lookup " Body Surface Area (BSA)", row.lookup "Body surface area (BSA)"]
  let rawBmi := firstPresent
    [row.lookup "bmi", row.lookup "BMI", row.lookup "Body Mass Index (BMI)"]
  { patientId := get "Patient ID"
    name := get "Name"
    dateOfBirth := none
    birthDate := none
    bmi := parseBmi rawBmi
    bsa := parseBsa rawBsa
    age := toNumber (row.lookup "Age")
    sex := get "Sex"
    smokingStatus := get "Smoking status (Never / Former / Current)"
    performanceStatus := get "Performance status (ECOG or Karnofsky)"
    diabetes := get "Diabetes"
    hypertension := get "Hypertension"
    heartDisease := get "Heart disease"
    copdAsthma := get "COPD / asthma"
    otherRelevantComorbidities := get "Other relevant comorbidities"
    primaryDiagnosis := get "Primary diagnosis"
    histologicType := get "Histologic type"
    tumorGrade := get "Tumor grade"
    diagnosisDate := get "Diagnosis date"
    initialTnmStage := get "Initial TNM stage"
    currentTnmStage := get "Current TNM stage"
    metastaticStatus := get "Metastatic status"
    metastaticSites := get "Metastatic sites"
    recurrenceStatus := get "Recurrence status"
    pathologyDiagnosisText := get "Pathology diagnosis text"
    histopathologicFeatures := get "Histopathologic features"
    marginStatus := get "Margin status"
    ihcMarkers := get "IHC markers"
    ambiguousDiagnosisFlag := bool "Ambiguous diagnosis flag"
    egfrMutation := get "EGFR mutation"
    alkRearrangement := get "ALK rearrangement"
    ros1Rearrangement := get "ROS1 rearrangement"
    krasMutation := get "KRAS mutation"
    brafMutation := get "BRAF mutation"
    metExon14Skipping := get "MET exon 14 skipping"
    retRearrangement := get "RET rearrangement"
    her2Mutation := get "HER2 mutation"
    ntrkFusion := get "NTRK fusion"
    pdL1Expression := get "PD-L1 expression (%)"
    tumorMutationalBurden := get "Tumor mutational burden (TMB)"
    microsatelliteInstability := get "Microsatellite instability (MSI)"
    ctdnaFindings := get "ctDNA findings"
    actionableMutationSummary := get "Actionable mutation summary"
    newMutationsOverTime := get "New mutations over time"
    treatmentPlanSummary := get "Treatment plan summary"
    surgicalTreatments := get "Surgical treatments (type + date)"
    radiationTreatments := get "Radiation treatments (site + date)"
    latestCtChest := get "Latest CT chest (date + summary)"
    latestPetCt := get "Latest PET/CT (date + summary)"
    latestBrainMri := get "Latest Brain MRI"
    newLesions := bool "New lesions (yes/no)"
    radiologyImpressionKeywords := get "Radiology impression keywords"
    renalDysfunctionFlag := bool "Renal dysfunction flag"
    liverDysfunctionFlag := bool "Liver dysfunction flag"
    cbcValues := get "CBC values"
    cmpValues := get "CMP values"
    electrolytes := get "Electrolytes"
    abnormalLabFlags := get "Abnormal lab flags"
    longitudinalLaboratoryFlagTrends := get "Longitudinal laboratory flag trends"
    overallDiseaseCourseSummary := get "Overall disease course summary"
    stageChangesOverTime := get "Stage changes over time"
    lastClinicalEncounterDate := get "Last clinical encounter date"
    pathologyReportLinks := get "Pathology report links"
    genomicReportLinks := get "Genomic report links"
    radiologyReportLinks := get "Radiology report links"
    providerNoteLinks := get "Provider note links"
    currentLineOfTherapy := get "Current line of therapy"
    priorTherapies := get "Prior therapies"
    regimenDetails := get "Regimen details (drug(s), dose, frequency)"
    treatmentStartAndEndDates := get "Treatment start and end dates"
    responsePerLine := get "Response per line (CR / PR / SD / PD)"
    treatmentResponseTimeline := get "Treatment response timeline"
    reasonsForTreatmentChange := get "Reasons for treatment change"
    treatmentRelatedToxicities := get "Treatment-related toxicities"
    radiologyTrend := get "Radiology trend"
    radiologyTrendsOverTime := get "Radiology trends over time"
    recistMeasurements := get "RECIST measurements"
    lesionCountSize := get "Lesion count / size"
    cea := get "CEA"
    ca199 := get "CA19-9"
    otherTumorMarkers := get "Other tumor markers"
    longitudinalBiomarkerTrends := get "Longitudinal biomarker trends"
    biomarkerTrendsOverTime := get "Biomarker trends over time"
    treatmentTimeline := mapTimelineEvents jsonParse (row.lookup "Treatment_Timeline_JSON")
    tumorSizeTrend := mapTumorSizePoints jsonParse (row.lookup "Tumor_Size_Trend_JSON")
    biomarkerTrend := mapBiomarkerPoints jsonParse (row.lookup "Biomarker_Trend_JSON")
    pathologyReports := mapDocumentLinks jsonParse (row.lookup "Pathology_Reports_JSON")
    genomicReports := mapDocumentLinks jsonParse (row.lookup "Genomic_Reports_JSON")
    radiologyReports := mapRadiologyDocuments jsonParse (row.lookup "Radiology_Reports_JSON")
    providerNotes := mapDocumentLinks jsonParse (row.lookup "Provider_Notes_JSON")
    pathologyDetails := some (parsePathologyDetails jsonParse (row.lookup "pathology_details_json"))
    unlabeledColumn := get "" }

/-- `loadPatients` of the data service, viewed after the papaparse step:
keep the rows with at least one non-blank cell and assemble each kept row
into a `Patient`. -/
def loadPatients (jsonParse : String → Option Json) (data : List RawRow) : List Patient :=
  (data.filter (fun row => row.any (fun cell => jsTrim cell.2 ≠ ""))).map
    (mapRowToPatient jsonParse)

/-- One telegraphic sidebar insight row. -/
structure DynamicInsight where
  label : String
  value : String
  priority : String
deriving DecidableEq

/-- One organ-system safety flag. -/
structure SafetyFlag where
  status : String
  details : String
deriving DecidableEq

/-- The renal/liver/hematology safety-flag triad. -/
structure SafetyFlags where
  renal : SafetyFlag
  liver : SafetyFlag
  hematology : SafetyFlag
deriving DecidableEq

/-- The sidebar block of the insight object. -/
structure SidebarInsights where
  dynamic_insights : List DynamicInsight
  safety_flags : SafetyFlags
deriving DecidableEq

/-- The tumor-size chart directive. -/
structure TumorSizeChart where
  should_render : Bool
  reason : String
deriving DecidableEq

/-- The biomarker chart directive. -/
structure BiomarkersChart where
  should_render : Bool
  selected_marker : String
  reason : String
deriving DecidableEq

/-- The chart-rendering directives. -/
structure ChartsBlock where
  tumor_size : TumorSizeChart
  biomarkers : BiomarkersChart
deriving DecidableEq

/-- The diagnosis tab narrative fields. -/
structure DiagnosisTab where
  mutation_highlight : String
  summary : String
deriving DecidableEq

/-- The investigation tab narrative field. -/
structure InvestigationTab where
  trend_analysis : String
deriving DecidableEq

/-- The treatment tab narrative field. -/
structure TreatmentTab where
  current_strategy : String
deriving DecidableEq

/-- The tab-specific narrative block. -/
structure TabsBlock where
  diagnosis : DiagnosisTab
  investigation : InvestigationTab
  treatment : TreatmentTab
deriving DecidableEq

/-- A structured record of one marker's change between two time-ordered
pathology reports, tagged with a clinical trend. -/
structure PathologyDelta where
  marker : String
  old_value : Option String
  new_value : Option String
  trend : String
deriving DecidableEq

/-- The investigations block of the insight object.  `pathology_deltas`
distinguishes `null` (`none`) from an empty list (`some []`). -/
structure Investigations where
  pathology_summary : Option String
  pathology_comparison_text : Option String
  pathology_deltas : Option (List PathologyDelta)
  labs_summary : Option String
deriving DecidableEq

/-- The structured insight object consumed by the dashboard. -/
structure MasterAIResponse where
  current_status_summary : Option String
  sidebar : SidebarInsights
  charts : ChartsBlock
  tabs : TabsBlock
  stage_summary : String
  investigations : Option Investigations
deriving DecidableEq

/-- JS `s.slice(0, n)`: the first `n` characters of a string. -/
def jsSlice (s : String) (n : Nat) : String :=
  ⟨s.data.take n⟩

/-- The deterministic fallback insight builder of `analyze-patient`:
a fully local `MasterAIResponse` derived from the patient record alone,
used whenever the LLM call fails. -/
def buildFallbackInsights (patient : Patient) : MasterAIResponse :=
  let tumorTrend := patient.tumorSizeTrend
  let biomarkerTrend := patient.biomarkerTrend
  let hasTumorTrend :=
    2 ≤ (tumorTrend.filter (fun point => point.sumOfDiametersMm.isSome)).length
  let hasBiomarkerTrend :=
    2 ≤ (biomarkerTrend.filter (fun point => point.value.isSome)).length
  let driver :=
    jsOr patient.actionableMutationSummary
      (jsOr patient.egfrMutation
        (jsOr patient.alkRearrangement
          (jsOr patient.ros1Rearrangement
            (jsOr patient.krasMutation
              (jsOr patient.brafMutation "No actionable mutation noted")))))
  let stageSummary :=
    if patient.currentTnmStage ≠ "" then patient.currentTnmStage ++ " status"
    else if patient.initialTnmStage ≠ "" then patient.initialTnmStage ++ " status"
    else "Stage pending"
  let renalStatus := if patient.renalDysfunctionFlag = some true then "Caution" else "Safe"
  let liverStatus := if patient.liverDysfunctionFlag = some true then "Caution" else "Safe"
  let hemeStatus :=
    if containsAnyCI patient.cbcValues ["low", "anemia", "thrombocytopenia", "leukopenia"]
        ∨ containsCI patient.abnormalLabFlags "flag" then
      "Caution"
    else "Safe"
  { current_status_summary := none
    sidebar :=
      { dynamic_insights :=
          [{ label := jsOr patient.primaryDiagnosis "Primary diagnosis pending"
             value := driver
             priority := "High" },
           { label := "Therapy status"
             value := jsOr patient.currentLineOfTherapy
               (jsOr patient.treatmentPlanSummary "No active plan logged")
             priority := "Medium" },
           { label := "Metastatic status"
             value := jsOr patient.metastaticStatus
               (jsOr patient.recurrenceStatus "Not documented")
             priority := "Medium" }]
        safety_flags :=
          { renal :=
              { status := renalStatus
                details :=
                  if patient.cmpValues ≠ "" then jsSlice patient.cmpValues 40
                  else "Creatinine trend unavailable" }
            liver :=
              { status := liverStatus
                details :=
                  if patient.cmpValues ≠ "" then jsSlice patient.cmpValues 40
                  else "LFTs unavailable" }
            hematology :=
              { status := if hemeStatus = "Safe" then "Safe" else "Caution"
                details :=
                  if patient.cbcValues ≠ "" then jsSlice patient.cbcValues 40
                  else "CBC data unavailable" } } }
    charts :=
      { tumor_size :=
          { should_render := hasTumorTrend
            reason :=
              if hasTumorTrend then ">=2 tumor measurements"
              else "Need at least 2 tumor measurements" }
        biomarkers :=
          { should_render := hasBiomarkerTrend
            selected_marker :=
              jsOrDefault (biomarkerTrend.head?.bind (fun point => point.markerName)) "Biomarker"
            reason :=
              if hasBiomarkerTrend then ">=2 biomarker datapoints"
              else "Need at least 2 biomarker datapoints" } }
    tabs :=
      { diagnosis :=
          { mutation_highlight := driver
            summary := jsOr patient.overallDiseaseCourseSummary
              (jsOr patient.histopathologicFeatures "Disease summary unavailable.") }
        investigation :=
          { trend_analysis := jsOr patient.radiologyTrend
              (jsOr patient.radiologyImpressionKeywords
                "No structured radiology trend available.") }
        treatment :=
          { current_strategy := jsOr patient.treatmentPlanSummary
              (jsOr patient.currentLineOfTherapy "Plan not documented.") } }
    stage_summary := stageSummary
    investigations := some
      { pathology_summary :=
          if patient.pathologyDiagnosisText ≠ "" then some patient.pathologyDiagnosisText
          else if patient.histopathologicFeatures ≠ "" then some patient.histopathologicFeatures
          else none
        pathology_comparison_text := none
        pathology_deltas := none
        labs_summary := none } }

/-- An LLM response text successfully parsed by `JSON.parse`, viewed
through the top-level keys of the `MasterAIResponse` schema: any key may
be missing, since the source casts the parse result without validating
it. -/
structure ParsedResponse where
  current_status_summary : Option String
  sidebar : Option SidebarInsights
  charts : Option ChartsBlock
  tabs : Option TabsBlock
  stage_summary : Option String
  investigations : Option Investigations
deriving DecidableEq

/-- A fully-shaped response viewed as a parse result (every required key
present). -/
def toParsed (m : MasterAIResponse) : ParsedResponse :=
  { current_status_summary := m.current_status_summary
    sidebar := some m.sidebar
    charts := some m.charts
    tabs := some m.tabs
    stage_summary := some m.stage_summary
    investigations := m.investigations }

/-- Whether every required top-level key of the schema is present. -/
def hasRequiredKeys (j : ParsedResponse) : Bool :=
  j.sidebar.isSome && j.charts.isSome && j.tabs.isSome && j.stage_summary.isSome

/-- Outcome of the external Gemini call followed by `JSON.parse`: the
fetch can reject, the returned text can fail to parse, or the text parses
to some JSON value. -/
inductive LLMOutcome where
  | fetchError : LLMOutcome
  | parseError : LLMOutcome
  | parsed (j : ParsedResponse) : LLMOutcome

/-- `generatePatientInsights` of `analyze-patient`: return the parsed LLM
response as-is when fetch and `JSON.parse` succeed, and the deterministic
fallback otherwise.  The source performs no schema validation on the
parsed value. -/
def generatePatientInsights (patient : Patient) (outcome : LLMOutcome) : ParsedResponse :=
  match outcome with
  | .parsed j => j
  | .fetchError => toParsed (buildFallbackInsights patient)
  | .parseError => toParsed (buildFallbackInsights patient)

/-- The module-level insight promise cache: patient id to the identifier
of the stored pending promise, plus a supply of fresh promise ids. -/
structure InsightCache where
  entries : List (String × Nat)
  nextId : Nat
deriving DecidableEq

/-- Result of one synchronous run of `getPatientInsights`: the promise
handed to the caller, the updated cache, and whether the underlying
generator was invoked. -/
structure InsightCallResult where
  promiseId : Nat
  cache : InsightCache
  invokedGenerator : Bool
deriving DecidableEq

/-- The synchronous body of `getPatientInsights` in the patient-insights
cache module: return the stored promise when one exists for the id, and
otherwise invoke the generator, store the new promise, and return it. -/
def getPatientInsightsCall (cache : InsightCache) (patientId : String) : InsightCallResult :=
  match cache.entries.lookup patientId with
  | some existing => { promiseId := existing, cache := cache, invokedGenerator := false }
  | none =>
    { promiseId := cache.nextId
      cache := { entries := (patientId, cache.nextId) :: cache.entries, nextId := cache.nextId + 1 }
      invokedGenerator := true }

/-- The rejection handler attached by `getPatientInsights`: on rejection
of the stored promise, the cache entry for the patient id is deleted so a
later call can retry. -/
def evictOnRejection (cache : InsightCache) (patientId : String) : InsightCache :=
  { entries := cache.entries.filter (fun entry => entry.1 ≠ patientId)
    nextId := cache.nextId }

/-- A pathology report normalized for display and comparison in the
investigations view. -/
structure NormalizedReport where
  id : String
  rawDate : Option String
  dateLabel : String
  procedure : Option String
  site : Option String
  diagnosis : Option String
  histotype : Option String
  grade : Option String
  tumorSize : Option String
  margins : Option String
  lvi : Option String
  pni : Option String
  lymphNodes : Option String
  ihcPanel : List (String × String)
deriving DecidableEq

/-- Leftmost match of `/g\s*([1-4])/i` in a character list: a `g` or `G`,
optional whitespace, then a digit 1 to 4. -/
def gradeDigitSearch : List Char → Option Nat
  | [] => none
  | c :: rest =>
    if c.toLower = 'g' then
      match rest.dropWhile (fun ch => ch.isWhitespace) with
      | d :: _ =>
        if d ∈ ['1', '2', '3', '4'] then some (d.toNat - '0'.toNat)
        else gradeDigitSearch rest
      | [] => gradeDigitSearch rest
    else gradeDigitSearch rest

/-- `gradeSeverity` of the pathology view: ordinal rank of a grade
string, from an explicit G1 to G4 token or from descriptive wording. -/
def gradeSeverity (grade : Option String) : Option Nat :=
  if ¬ jsTruthy grade then none
  else
    let g := grade.getD ""
    match gradeDigitSearch g.data with
    | some n => some n
    | none =>
      if containsAnyCI g ["poor", "high"] then some 3
      else if containsCI g "mod" then some 2
      else if containsAnyCI g ["well", "low"] then some 1
      else none

/-- `numberFromString` of the pathology view: strip commas, then take the
leftmost `[-+]?\d*\.?\d+` match as a number. -/
def numberFromString (value : Option String) : Option JsNumber :=
  match value with
  | none => none
  | some v =>
    if v = "" then none
    else firstNumberMatch (v.data.filter (fun c => c ≠ ','))

/-- Trend of the grade delta: ordinal comparison of the two grade
severities when both are defined, `stable` otherwise. -/
def gradeTrend (latest previous : Option String) : String :=
  match gradeSeverity latest, gradeSeverity previous with
  | some l, some p =>
    if p < l then "worsening" else if l < p then "improving" else "stable"
  | _, _ => "stable"

/-- The grade block of `generateStructuralDeltas`. -/
def gradeDeltas (latest previous : NormalizedReport) : List PathologyDelta :=
  if jsTruthy latest.grade ∨ jsTruthy previous.grade then
    if latest.grade ≠ previous.grade then
      [{ marker := "Grade"
         old_value := some (jsOrDefault previous.grade "Not graded")
         new_value := some (jsOrDefault latest.grade "Not graded")
         trend := gradeTrend latest.grade previous.grade }]
    else []
  else []

/-- Trend of the tumor-size delta: sign of the numeric difference when
both sizes parse, `stable` otherwise.  No significance threshold is
applied. -/
def sizeTrend (latest previous : Option String) : String :=
  match numberFromString latest, numberFromString previous with
  | some l, some p =>
    if jsNumLt p l then "worsening" else if jsNumLt l p then "improving" else "stable"
  | _, _ => "stable"

/-- The tumor-size block of `generateStructuralDeltas`. -/
def tumorSizeDeltas (latest previous : NormalizedReport) : List PathologyDelta :=
  if jsTruthy latest.tumorSize ∨ jsTruthy previous.tumorSize then
    if latest.tumorSize ≠ previous.tumorSize then
      [{ marker := "Tumor size"
         old_value := some (jsOrDefault previous.tumorSize "Not measured")
         new_value := some (jsOrDefault latest.tumorSize "Not measured")
         trend := sizeTrend latest.tumorSize previous.tumorSize }]
    else []
  else []

/-- Margin positivity: a truthy value matching `/pos|involved|positive/i`. -/
def marginsPositive (value : Option String) : Bool :=
  jsTruthy value ∧ containsAnyCI (value.getD "") ["pos", "involved", "positive"]

/-- Trend of the margins delta: presence appearing is `worsening`,
presence resolving is `improving`. -/
def marginTrend (latest previous : Option String) : String :=
  let isPositive := marginsPositive latest
  let wasPositive := marginsPositive previous
  if isPositive ∧ ¬ wasPositive then "worsening"
  else if ¬ isPositive ∧ wasPositive then "improving"
  else "stable"

/-- The margins block of `generateStructuralDeltas`. -/
def marginDeltas (latest previous : NormalizedReport) : List PathologyDelta :=
  if jsTruthy latest.margins ∨ jsTruthy previous.margins then
    if latest.margins ≠ previous.margins then
      [{ marker := "Margins"
         old_value := some (jsOrDefault previous.margins "Not assessed")
         new_value := some (jsOrDefault latest.margins "Not assessed")
         trend := marginTrend latest.margins previous.margins }]
    else []
  else []

/-- Trend of an invasion-field delta, from `/present|positive|involved/i`
tests of the latest then the previous value. -/
def invasionTrend (latestValue previousValue : Option String) : String :=
  if jsTruthy latestValue
      ∧ containsAnyCI (latestValue.getD "") ["present", "positive", "involved"] then
    "worsening"
  else if jsTruthy previousValue
      ∧ containsAnyCI (previousValue.getD "") ["present", "positive", "involved"] then
    "improving"
  else "stable"

/-- One invasion-field entry of `generateStructuralDeltas` (applied to
lymphovascular invasion, perineural invasion and nodal status): skip when
the values are strictly equal or both falsy, emit a delta otherwise. -/
def invasionFieldDeltas (label : String) (latestValue previousValue : Option String) :
    List PathologyDelta :=
  if latestValue = previousValue then []
  else if ¬ jsTruthy latestValue ∧ ¬ jsTruthy previousValue then []
  else
    [{ marker := label
       old_value := some (jsOrDefault previousValue "Not documented")
       new_value := some (jsOrDefault latestValue "Not documented")
       trend := invasionTrend latestValue previousValue }]

/-- Key order of the JS spread `Object.keys(previousPanel ++ latestPanel)`:
the previous panel's markers in order, then the latest panel's new
markers. -/
def ihcMergedKeys (previousPanel latestPanel : List (String × String)) : List String :=
  let previousKeys := previousPanel.map Prod.fst
  previousKeys ++ (latestPanel.map Prod.fst).filter (fun k => ¬ previousKeys.contains k)

/-- One IHC marker entry of `generateStructuralDeltas`: skip when the two
readings are strictly equal or both falsy, emit a delta otherwise. -/
def ihcMarkerDelta (latest previous : NormalizedReport) (marker : String) :
    List PathologyDelta :=
  let oldValue := previous.ihcPanel.lookup marker
  let newValue := latest.ihcPanel.lookup marker
  if oldValue = newValue then []
  else if ¬ jsTruthy oldValue ∧ ¬ jsTruthy newValue then []
  else
    [{ marker := "IHC · " ++ marker
       old_value := some (jsOrDefault oldValue "Not reported")
       new_value := some (jsOrDefault newValue "Not reported")
       trend :=
         if ¬ jsTruthy oldValue then "new"
         else if ¬ jsTruthy newValue then "improving"
         else "stable" }]

/-- The IHC block of `generateStructuralDeltas`: the first six merged
markers, in merged key order. -/
def ihcDeltas (latest previous : NormalizedReport) : List PathologyDelta :=
  ((ihcMergedKeys previous.ihcPanel latest.ihcPanel).take 6).flatMap
    (ihcMarkerDelta latest previous)

/-- `generateStructuralDeltas` of the pathology view: the locally derived
deltas between the latest and the previous report, in the field order of
the source (grade, tumor size, margins, the three invasion fields, then
up to six IHC markers). -/
def generateStructuralDeltas (latest previous : Option NormalizedReport) :
    List PathologyDelta :=
  match latest, previous with
  | some l, some p =>
    gradeDeltas l p ++ tumorSizeDeltas l p ++ marginDeltas l p ++
    invasionFieldDeltas "Lymphovascular invasion" l.lvi p.lvi ++
    invasionFieldDeltas "Perineural invasion" l.pni p.pni ++
    invasionFieldDeltas "Nodal status" l.lymphNodes p.lymphNodes ++
    ihcDeltas l p
  | _, _ => []

/-- The sort key of `sortReports`: `a.rawDate ? Date.parse(a.rawDate) : 0`.
A missing or empty date is the number `0`; a present date is handed to
`Date.parse`, modelled by the `dateParse` parameter, with `none` standing
for an unparseable date (`NaN`). -/
def reportSortKey (dateParse : String → Option Int) (r : NormalizedReport) : Option Int :=
  match r.rawDate with
  | none => some 0
  | some s => if s = "" then some 0 else dateParse s

/-- The `(a, b) => db - da` comparator of `sortReports`: the sign of the
key difference decides the order.  When either key is `NaN` the
subtraction is `NaN`, which `Array.prototype.sort` treats as comparing
equal. -/
def compareReportsJs (dateParse : String → Option Int) (a b : NormalizedReport) : Ordering :=
  match reportSortKey dateParse a, reportSortKey dateParse b with
  | some ka, some kb =>
    if kb < ka then Ordering.lt
    else if ka < kb then Ordering.gt
    else Ordering.eq
  | _, _ => Ordering.eq

/-- Stable insertion of a report into an already-processed suffix: the
report passes every element it strictly follows under the comparator and
lands before the first element it does not. -/
def insertReport (dateParse : String → Option Int) (a : NormalizedReport) :
    List NormalizedReport → List NormalizedReport
  | [] => [a]
  | b :: rest =>
    if compareReportsJs dateParse a b = Ordering.gt then
      b :: insertReport dateParse a rest
    else a :: b :: rest

/-- `sortReports` of the pathology view: a stable sort of the report list
under the newest-first date comparator, modelling the engine's stable
`Array.prototype.sort` on a copy of the input. -/
def sortReports (dateParse : String → Option Int) :
    List NormalizedReport → List NormalizedReport
  | [] => []
  | a :: rest => insertReport dateParse a (sortReports dateParse rest)

/-- The newest-first order the sort is specified against: the key of the
later element never exceeds the key of the earlier one. -/
def newestFirst (dateParse : String → Option Int) (a b : NormalizedReport) : Prop :=
  (reportSortKey dateParse b).getD 0 ≤ (reportSortKey dateParse a).getD 0

/-- The delta-selection logic of the `PathologyView` component: with at
most one report the displayed delta list is empty; with several reports
the AI-provided deltas win when non-empty, and the locally derived
structural deltas are used otherwise. -/
def viewStructuralDeltas (reports : List NormalizedReport)
    (aiInvestigation : Option Investigations) : List PathologyDelta :=
  let hasMultipleReports := 1 < reports.length
  let aiDeltas :=
    if hasMultipleReports then
      (aiInvestigation.bind (fun i => i.pathology_deltas)).getD []
    else []
  if ¬ hasMultipleReports then []
  else if aiDeltas ≠ [] then aiDeltas
  else generateStructuralDeltas reports.head? (reports.get? 1)

/-- A patient with every scalar field blank, every flag null and every
collection empty: the degenerate record used to exercise fallback
totality. -/
def allNullPatient : Patient :=
  { patientId := "", name := "", dateOfBirth := none, birthDate := none
    bmi := none, bsa := none, age := none, sex := "", smokingStatus := ""
    performanceStatus := "", diabetes := "", hypertension := "", heartDisease := ""
    copdAsthma := "", otherRelevantComorbidities := "", primaryDiagnosis := ""
    histologicType := "", tumorGrade := "", diagnosisDate := "", initialTnmStage := ""
    currentTnmStage := "", metastaticStatus := "", metastaticSites := ""
    recurrenceStatus := "", pathologyDiagnosisText := "", histopathologicFeatures := ""
    marginStatus := "", ihcMarkers := "", ambiguousDiagnosisFlag := none
    egfrMutation := "", alkRearrangement := "", ros1Rearrangement := ""
    krasMutation := "", brafMutation := "", metExon14Skipping := ""
    retRearrangement := "", her2Mutation := "", ntrkFusion := "", pdL1Expression := ""
    tumorMutationalBurden := "", microsatelliteInstability := "", ctdnaFindings := ""
    actionableMutationSummary := "", newMutationsOverTime := "", treatmentPlanSummary := ""
    surgicalTreatments := "", radiationTreatments := "", latestCtChest := ""
    latestPetCt := "", latestBrainMri := "", newLesions := none
    radiologyImpressionKeywords := "", renalDysfunctionFlag := none
    liverDysfunctionFlag := none, cbcValues := "", cmpValues := "", electrolytes := ""
    abnormalLabFlags := "", longitudinalLaboratoryFlagTrends := ""
    overallDiseaseCourseSummary := "", stageChangesOverTime := ""
    lastClinicalEncounterDate := "", pathologyReportLinks := "", genomicReportLinks := ""
    radiologyReportLinks := "", providerNoteLinks := "", currentLineOfTherapy := ""
    priorTherapies := "", regimenDetails := "", treatmentStartAndEndDates := ""
    responsePerLine := "", treatmentResponseTimeline := "", reasonsForTreatmentChange := ""
    treatmentRelatedToxicities := "", radiologyTrend := "", radiologyTrendsOverTime := ""
    recistMeasurements := "", lesionCountSize := "", cea := "", ca199 := ""
    otherTumorMarkers := "", longitudinalBiomarkerTrends := "", biomarkerTrendsOverTime := ""
    treatmentTimeline := [], tumorSizeTrend := [], biomarkerTrend := []
    pathologyReports := [], genomicReports := [], radiologyReports := []
    providerNotes := [], pathologyDetails := none, unlabeledColumn := "" }

/-- A structured pathology report with no populated fields. -/
def emptyPathologyDetail : PathologyDetails :=
  { procedure := none, date := none, site := none, diagnosisText := none
    histology := none, ihcPanel := none, raw := Json.obj [] }

/-- A patient holding exactly one structured pathology report. -/
def patientOneReport : Patient :=
  { allNullPatient with pathologyDetails := some [emptyPathologyDetail] }

/-- A parsed LLM response with every top-level key missing
(for instance the text `"{}"`). -/
def emptyParsed : ParsedResponse :=
  { current_status_summary := none, sidebar := none, charts := none
    tabs := none, stage_summary := none, investigations := none }

/-- A normalized report with no populated fields. -/
def emptyReport : NormalizedReport :=
  { id := "", rawDate := none, dateLabel := "", procedure := none, site := none
    diagnosis := none, histotype := none, grade := none, tumorSize := none
    margins := none, lvi := none, pni := none, lymphNodes := none, ihcPanel := [] }

/-- Latest report of the threshold scenario: tumor size 110. -/
def reportSize110 : NormalizedReport :=
  { emptyReport with id := "size110", tumorSize := some "110" }

/-- Previous report of the threshold scenario: tumor size 100. -/
def reportSize100 : NormalizedReport :=
  { emptyReport with id := "size100", tumorSize := some "100" }

/-- Latest report of the casing scenario: grade written `g2`. -/
def reportGradeLower : NormalizedReport :=
  { emptyReport with id := "gLower", grade := some "g2" }

/-- Previous report of the casing scenario: grade written `G2`. -/
def reportGradeUpper : NormalizedReport :=
  { emptyReport with id := "gUpper", grade := some "G2" }

/-- A report dated by a parseable June 2023 date string. -/
def reportJune : NormalizedReport :=
  { emptyReport with id := "june", rawDate := some "2023-06-01" }

/-- A report dated by a parseable January 2023 date string. -/
def reportJanuary : NormalizedReport :=
  { emptyReport with id := "january", rawDate := some "2023-01-01" }

/-- A report carrying a present but unparseable date string. -/
def reportBadDate : NormalizedReport :=
  { emptyReport with id := "bad", rawDate := some "not-a-date" }

/-- A concrete stand-in for `Date.parse` defined on the two dates the
sort scenarios use; every other string is unparseable. -/
def dateParse0 (s : String) : Option Int :=
  if s = "2023-06-01" then some 1685577600000
  else if s = "2023-01-01" then some 1672531200000
  else none

/-- A raw CSV row with a name but no patient identifier. -/
def rowMissingId : RawRow :=
  [("Name", "Test Patient")]

/-- A trivial JSON parser stand-in for rows that carry no JSON columns. -/
def jsonParse0 (_ : String) : Option Json := none

/-- A lookup misses when no entry of the list carries the key. -/
theorem lookup_eq_none_of_keys_ne (patientId : String) :
    ∀ l : List (String × Nat), (∀ e ∈ l, e.1 ≠ patientId) → l.lookup patientId = none := by
  intro l
  induction l with
  | nil => intro _; rfl
  | cons head tail ih =>
    intro hall
    have hh : head.1 ≠ patientId := hall head (List.mem_cons_self _ _)
    have hbeq : (patientId == head.1) = false := by
      simp only [beq_eq_false_iff_ne, ne_eq]
      exact fun hEq => hh hEq.symm
    simp only [List.lookup, hbeq]
    exact ih (fun e he => hall e (List.mem_cons_of_mem _ he))

/-- A lookup never finds a key whose entries were all filtered away. -/
theorem lookup_filter_ne (patientId : String) (l : List (String × Nat)) :
    (l.filter (fun entry => entry.1 ≠ patientId)).lookup patientId = none :=
  lookup_eq_none_of_keys_ne patientId _
    (fun e he => by simpa using List.of_mem_filter he)

/-- A lookup never finds a key that the rejection handler just deleted. -/
theorem lookup_evictOnRejection (cache : InsightCache) (patientId : String) :
    (evictOnRejection cache patientId).entries.lookup patientId = none :=
  lookup_filter_ne patientId cache.entries

/-- After a call for an id, the cache stores the promise that the call
returned under that id. -/
theorem lookup_after_call (cache : InsightCache) (patientId : String) :
    (getPatientInsightsCall cache patientId).cache.entries.lookup patientId =
      some (getPatientInsightsCall cache patientId).promiseId := by
  cases h : cache.entries.lookup patientId with
  | some existing => simp [getPatientInsightsCall, h]
  | none => simp [getPatientInsightsCall, h, List.lookup]

/-- C9: the insight cache keeps at most one in-flight request per patient
id: a second call while the first entry is stored returns the same
promise without invoking the generator, and after the rejection handler
evicts the entry a subsequent call invokes the generator again. -/
theorem insight_cache_single_flight_and_retry (cache : InsightCache) (patientId : String) :
    (getPatientInsightsCall (getPatientInsightsCall cache patientId).cache patientId).promiseId =
        (getPatientInsightsCall cache patientId).promiseId ∧
    (getPatientInsightsCall (getPatientInsightsCall cache patientId).cache
        patientId).invokedGenerator = false ∧
    (getPatientInsightsCall
        (evictOnRejection
          (getPatientInsightsCall (getPatientInsightsCall cache patientId).cache patientId).cache
          patientId)
        patientId).invokedGenerator = true := by
  have hsecond := lookup_after_call cache patientId
  have hfirst :
      getPatientInsightsCall (getPatientInsightsCall cache patientId).cache patientId =
        { promiseId := (getPatientInsightsCall cache patientId).promiseId
          cache := (getPatientInsightsCall cache patientId).cache
          invokedGenerator := false } := by
    rw [getPatientInsightsCall, hsecond]
  have hretry : ∀ c : InsightCache,
      (getPatientInsightsCall (evictOnRejection c patientId) patientId).invokedGenerator =
        true := by
    intro c
    have hevict := lookup_evictOnRejection c patientId
    simp [getPatientInsightsCall, hevict]
  exact ⟨by rw [hfirst], by rw [hfirst], hretry _⟩

/-- C10: the deterministic fallback never raises a `Danger` safety flag:
each of the renal, liver and hematology statuses it assigns is either
`Safe` or `Caution`. -/
theorem fallback_safety_status_never_danger (patient : Patient) :
    ((buildFallbackInsights patient).sidebar.safety_flags.renal.status = "Safe" ∨
      (buildFallbackInsights patient).sidebar.safety_flags.renal.status = "Caution") ∧
    ((buildFallbackInsights patient).sidebar.safety_flags.liver.status = "Safe" ∨
      (buildFallbackInsights patient).sidebar.safety_flags.liver.status = "Caution") ∧
    ((buildFallbackInsights patient).sidebar.safety_flags.hematology.status = "Safe" ∨
      (buildFallbackInsights patient).sidebar.safety_flags.hematology.status = "Caution") := by
  unfold buildFallbackInsights
  refine ⟨?_, ?_, ?_⟩ <;> dsimp only <;> split <;> simp

/-- C3 (amended): a response text that `JSON.parse` accepts is returned
as-is, with no validation of the required top-level schema keys, while a
fetch or parse failure produces the deterministic fallback. -/
theorem generateInsights_no_schema_validation (patient : Patient) (j : ParsedResponse)
    (_hmissing : hasRequiredKeys j = false) :
    generatePatientInsights patient (LLMOutcome.parsed j) = j ∧
    generatePatientInsights patient LLMOutcome.parseError =
      toParsed (buildFallbackInsights patient) :=
  ⟨rfl, rfl⟩

/-- Witness for C3 at a parse result with every top-level key missing. -/
theorem generateInsights_no_schema_validation_witness :
    generatePatientInsights allNullPatient (LLMOutcome.parsed emptyParsed) = emptyParsed ∧
    generatePatientInsights allNullPatient LLMOutcome.parseError =
      toParsed (buildFallbackInsights allNullPatient) :=
  generateInsights_no_schema_validation allNullPatient emptyParsed (by decide)

/-- C3 counterexample: the parse result of the text `"{}"` misses every
required key, yet the function returns it unchanged instead of the
deterministic fallback. -/
theorem parsed_missing_keys_not_fallback :
    hasRequiredKeys emptyParsed = false ∧
    generatePatientInsights allNullPatient (LLMOutcome.parsed emptyParsed) ≠
      toParsed (buildFallbackInsights allNullPatient) := by
  decide

/-- C8 (amended): the batch loader excludes only fully-blank rows; a row
with any non-blank cell is loaded even when it has no patient identifier,
in which case its `patientId` is the sanitized empty lookup. -/
theorem loadPatients_keeps_rows_without_id (jsonParse : String → Option Json)
    (data : List RawRow) (row : RawRow) (hmem : row ∈ data)
    (hnonblank : row.any (fun cell => jsTrim cell.2 ≠ "") = true) :
    mapRowToPatient jsonParse row ∈ loadPatients jsonParse data ∧
    (mapRowToPatient jsonParse row).patientId = sanitize (row.lookup "Patient ID") := by
  refine ⟨?_, rfl⟩
  exact List.mem_map_of_mem _ (List.mem_filter.mpr ⟨hmem, hnonblank⟩)

/-- Witness for C8 at a one-row batch whose row has a name but no
identifier column. -/
theorem loadPatients_keeps_rows_without_id_witness :
    mapRowToPatient jsonParse0 rowMissingId ∈ loadPatients jsonParse0 [rowMissingId] ∧
    (mapRowToPatient jsonParse0 rowMissingId).patientId =
      sanitize (rowMissingId.lookup "Patient ID") :=
  loadPatients_keeps_rows_without_id jsonParse0 [rowMissingId] rowMissingId (by decide) (by decide)

/-- C8 counterexample: a row lacking a patient identifier is not excluded
from the loaded set; it is loaded with an empty `patientId`. -/
theorem loadPatients_missing_id_not_excluded :
    rowMissingId.lookup "Patient ID" = none ∧
    (loadPatients jsonParse0 [rowMissingId]).map (fun p => p.patientId) = [""] := by
  decide

/-- The JS string-or falls back only when its first operand is empty, so
a non-empty default keeps the result non-empty. -/
theorem jsOr_ne_empty (a b : String) (h : b ≠ "") : jsOr a b ≠ "" := by
  unfold jsOr
  split
  · exact h
  · assumption

/-- The optional-string-or with a non-empty default is non-empty. -/
theorem jsOrDefault_ne_empty (a : Option String) (b : String) (h : b ≠ "") :
    jsOrDefault a b ≠ "" := by
  cases a with
  | none => exact h
  | some s =>
    simp only [jsOrDefault]
    split
    · exact h
    · assumption

/-- A non-empty string has a non-empty character list. -/
theorem string_data_ne_nil_of_ne_empty {s : String} (h : s ≠ "") : s.data ≠ [] := by
  intro hd
  exact h (String.ext (by rw [hd]))

/-- Slicing the first forty characters of a non-empty string is
non-empty. -/
theorem jsSlice_ne_empty {s : String} (h : s ≠ "") : jsSlice s 40 ≠ "" := by
  intro hEq
  have h40 : s.data.take 40 = ([] : List Char) := congrArg String.data hEq
  rcases List.take_eq_nil_iff.mp h40 with h1 | h1
  · exact absurd h1 (by decide)
  · exact string_data_ne_nil_of_ne_empty h h1

/-- Appending the literal suffix used by the stage summary keeps the
string non-empty. -/
theorem append_status_ne_empty (s : String) : s ++ " status" ≠ "" := by
  intro hEq
  have hdata : s.data ++ " status".data = [] := by
    have := congrArg String.data hEq
    rwa [String.data_append] at this
  exact absurd (List.append_eq_nil.mp hdata).2 (by decide)

/-- C2 (amended): boolean normalization is prefix-based, not exact-token
based: after a case-insensitive trim, a value starting with `yes` (and
the exact tokens `y`, `true`) maps to true, a value starting with `no`
(and the exact tokens `n`, `false`) maps to false — including values such
as `Not documented` — and anything else, such as `Unknown`, maps to
null. -/
theorem toBoolean_prefix_matching :
    (∀ s : String, jsToLower (jsTrim s) ∈ (["yes", "y", "true"] : List String) →
      toBoolean (some s) = some true) ∧
    (∀ s : String, jsToLower (jsTrim s) ∈ (["no", "n", "false"] : List String) →
      toBoolean (some s) = some false) ∧
    (∀ s : String, jsToLower (jsTrim s) = "unknown" → toBoolean (some s) = none) ∧
    (∀ s r : String, jsToLower (jsTrim s) = "no" ++ r → toBoolean (some s) = some false) := by
  refine ⟨?_, ?_, ?_, ?_⟩
  · intro s h
    simp only [List.mem_cons, List.not_mem_nil, or_false] at h
    rcases h with h | h | h <;>
      · have hs : s ≠ "" := by
          intro he
          rw [he] at h
          exact absurd h (by decide)
        simp only [toBoolean]
        rw [if_neg hs]
        simp only [h]
        decide
  · intro s h
    simp only [List.mem_cons, List.not_mem_nil, or_false] at h
    rcases h with h | h | h <;>
      · have hs : s ≠ "" := by
          intro he
          rw [he] at h
          exact absurd h (by decide)
        simp only [toBoolean]
        rw [if_neg hs]
        simp only [h]
        decide
  · intro s h
    by_cases hs : s = ""
    · rw [hs]
      decide
    · simp only [toBoolean]
      rw [if_neg hs]
      simp only [h]
      decide
  · intro s r h
    have hs : s ≠ "" := by
      intro he
      rw [he] at h
      have h0 : jsToLower (jsTrim "") = "" := rfl
      rw [h0] at h
      have hlen := congrArg String.length h
      rw [String.length_append] at hlen
      have hlen2 : (0 : Nat) = 2 + r.length := hlen
      omega
    have hdata : ("no" ++ r).data = 'n' :: 'o' :: r.data := by
      rw [String.data_append]
      rfl
    have hyes : ¬(("no" ++ r).data.take 3 = "yes".data ∨ ("no" ++ r) = "y" ∨
        ("no" ++ r) = "true") := by
      rintro (hc | hc | hc)
      · rw [hdata] at hc
        simp [List.take] at hc
      · have := congrArg String.data hc
        rw [hdata] at this
        simp at this
      · have := congrArg String.data hc
        rw [hdata] at this
        simp at this
    have hno : ("no" ++ r).data.take 2 = "no".data ∨ ("no" ++ r) = "n" ∨
        ("no" ++ r) = "false" := by
      left
      rw [hdata]
      rfl
    simp only [toBoolean]
    rw [if_neg hs]
    simp only [h]
    rw [if_neg hyes, if_pos hno]

/-- Witness for C2 at the tokens of the spec scenarios. -/
theorem toBoolean_prefix_matching_witness :
    toBoolean (some " TRUE ") = some true ∧
    toBoolean (some "No") = some false ∧
    toBoolean (some "Unknown") = none ∧
    toBoolean (some "Not documented") = some false :=
  ⟨toBoolean_prefix_matching.1 " TRUE " (by decide),
   toBoolean_prefix_matching.2.1 "No" (by decide),
   toBoolean_prefix_matching.2.2.1 "Unknown" (by decide),
   toBoolean_prefix_matching.2.2.2 "Not documented" "t documented" (by decide)⟩

/-- C2 counterexample: the raw flag value `Not documented` normalizes to
false, not to null, because the matcher tests a `no` prefix rather than
exact membership in the accepted-token set. -/
theorem toBoolean_not_documented_is_false :
    toBoolean (some "Not documented") = some false := by
  decide

/-- C4: insight generation is total: a failed fetch or parse always
yields the deterministic fallback, and for every patient — including one
whose fields are all null or empty — the fallback is a fully-shaped
response whose narrative and detail strings are non-empty, with
"not documented"-style placeholders at the all-null patient. -/
theorem generateInsights_total_with_fallback (patient : Patient) :
    generatePatientInsights patient LLMOutcome.fetchError =
        toParsed (buildFallbackInsights patient) ∧
    generatePatientInsights patient LLMOutcome.parseError =
        toParsed (buildFallbackInsights patient) ∧
    (buildFallbackInsights patient).stage_summary ≠ "" ∧
    ((buildFallbackInsights patient).sidebar.dynamic_insights.all
      (fun insight => insight.label != "" && insight.value != "" && insight.priority != ""))
        = true ∧
    (buildFallbackInsights patient).sidebar.safety_flags.renal.details ≠ "" ∧
    (buildFallbackInsights patient).sidebar.safety_flags.liver.details ≠ "" ∧
    (buildFallbackInsights patient).sidebar.safety_flags.hematology.details ≠ "" ∧
    (buildFallbackInsights patient).charts.tumor_size.reason ≠ "" ∧
    (buildFallbackInsights patient).charts.biomarkers.reason ≠ "" ∧
    (buildFallbackInsights patient).charts.biomarkers.selected_marker ≠ "" ∧
    (buildFallbackInsights patient).tabs.diagnosis.mutation_highlight ≠ "" ∧
    (buildFallbackInsights patient).tabs.diagnosis.summary ≠ "" ∧
    (buildFallbackInsights patient).tabs.investigation.trend_analysis ≠ "" ∧
    (buildFallbackInsights patient).tabs.treatment.current_strategy ≠ "" ∧
    (buildFallbackInsights allNullPatient).stage_summary = "Stage pending" ∧
    (buildFallbackInsights allNullPatient).sidebar.safety_flags.renal.details =
        "Creatinine trend unavailable" ∧
    (buildFallbackInsights allNullPatient).tabs.diagnosis.summary =
        "Disease summary unavailable." ∧
    (buildFallbackInsights allNullPatient).tabs.treatment.current_strategy =
        "Plan not documented." := by
  refine ⟨rfl, rfl, ?_, ?_, ?_, ?_, ?_, ?_, ?_, ?_, ?_, ?_, ?_, ?_,
    by decide, by decide, by decide, by decide⟩
  · unfold buildFallbackInsights
    dsimp only
    split
    · exact append_status_ne_empty _
    · split
      · exact append_status_ne_empty _
      · decide
  · unfold buildFallbackInsights
    dsimp only
    simp only [List.all_cons, List.all_nil, Bool.and_true, Bool.and_eq_true,
      bne_iff_ne, ne_eq]
    repeat' apply And.intro
    all_goals first
      | decide
      | · repeat apply jsOr_ne_empty
          decide
  · unfold buildFallbackInsights
    dsimp only
    split
    · apply jsSlice_ne_empty
      assumption
    · decide
  · unfold buildFallbackInsights
    dsimp only
    split
    · apply jsSlice_ne_empty
      assumption
    · decide
  · unfold buildFallbackInsights
    dsimp only
    split
    · apply jsSlice_ne_empty
      assumption
    · decide
  · unfold buildFallbackInsights
    dsimp only
    split <;> decide
  · unfold buildFallbackInsights
    dsimp only
    split <;> decide
  · unfold buildFallbackInsights
    dsimp only
    exact jsOrDefault_ne_empty _ _ (by decide)
  · unfold buildFallbackInsights
    dsimp only
    repeat apply jsOr_ne_empty
    decide
  · unfold buildFallbackInsights
    dsimp only
    repeat apply jsOr_ne_empty
    decide
  · unfold buildFallbackInsights
    dsimp only
    repeat apply jsOr_ne_empty
    decide
  · unfold buildFallbackInsights
    dsimp only
    repeat apply jsOr_ne_empty
    decide

/-- C1 (amended): the deterministic fallback sets
`investigations.pathology_deltas` to `null` for every patient, whatever
the report count; the zero-versus-several cardinality behavior lives in
the pathology view, whose displayed delta list is empty whenever fewer
than two reports exist. -/
theorem fallback_pathology_deltas_always_null (patient : Patient)
    (reports : List NormalizedReport) (ai : Option Investigations)
    (hsingle : reports.length ≤ 1) :
    ((buildFallbackInsights patient).investigations).map
        (fun i => i.pathology_deltas) = some none ∧
    viewStructuralDeltas reports ai = [] := by
  refine ⟨rfl, ?_⟩
  unfold viewStructuralDeltas
  simp only
  rw [if_pos (by omega)]

/-- Witness for C1 at the all-null patient and an empty report list. -/
theorem fallback_pathology_deltas_always_null_witness :
    ((buildFallbackInsights allNullPatient).investigations).map
        (fun i => i.pathology_deltas) = some none ∧
    viewStructuralDeltas [] none = [] :=
  fallback_pathology_deltas_always_null allNullPatient [] none (by decide)

/-- C1 counterexample: for a patient with exactly one structured
pathology report the fallback still returns `null` deltas, not the empty
sequence the cardinality invariant requires. -/
theorem fallback_single_report_deltas_not_empty_list :
    (patientOneReport.pathologyDetails.getD []).length = 1 ∧
    ((buildFallbackInsights patientOneReport).investigations).map
        (fun i => i.pathology_deltas) = some none ∧
    ((buildFallbackInsights patientOneReport).investigations).map
        (fun i => i.pathology_deltas) ≠ some (some []) := by
  decide

/-- C6 (amended): each structural delta is emitted exactly when the two
field values differ as exact strings (JS strict comparison, which is
case-sensitive) with at least one side present; equal values — only
exact, not case-insensitive, equality — and two absent values emit
nothing. -/
theorem structural_delta_emission_exact_comparison (l p : NormalizedReport) :
    generateStructuralDeltas (some l) (some p) =
      gradeDeltas l p ++ tumorSizeDeltas l p ++ marginDeltas l p ++
        invasionFieldDeltas "Lymphovascular invasion" l.lvi p.lvi ++
        invasionFieldDeltas "Perineural invasion" l.pni p.pni ++
        invasionFieldDeltas "Nodal status" l.lymphNodes p.lymphNodes ++
        ihcDeltas l p ∧
    (gradeDeltas l p ≠ [] ↔
      (jsTruthy l.grade = true ∨ jsTruthy p.grade = true) ∧ l.grade ≠ p.grade) ∧
    (tumorSizeDeltas l p ≠ [] ↔
      (jsTruthy l.tumorSize = true ∨ jsTruthy p.tumorSize = true) ∧
        l.tumorSize ≠ p.tumorSize) ∧
    (marginDeltas l p ≠ [] ↔
      (jsTruthy l.margins = true ∨ jsTruthy p.margins = true) ∧ l.margins ≠ p.margins) ∧
    (∀ label a b, invasionFieldDeltas label a b ≠ [] ↔
      (jsTruthy a = true ∨ jsTruthy b = true) ∧ a ≠ b) ∧
    (∀ marker, ihcMarkerDelta l p marker ≠ [] ↔
      (jsTruthy (p.ihcPanel.lookup marker) = true ∨
          jsTruthy (l.ihcPanel.lookup marker) = true) ∧
        p.ihcPanel.lookup marker ≠ l.ihcPanel.lookup marker) := by
  refine ⟨rfl, ?_, ?_, ?_, ?_, ?_⟩
  · unfold gradeDeltas
    by_cases h1 : jsTruthy l.grade = true ∨ jsTruthy p.grade = true
    · by_cases h2 : l.grade = p.grade
      · rw [if_pos h1, if_neg (not_not_intro h2)]
        exact iff_of_false (by simp) (fun hc => hc.2 h2)
      · rw [if_pos h1, if_pos h2]
        exact iff_of_true (by simp) ⟨h1, h2⟩
    · rw [if_neg h1]
      exact iff_of_false (by simp) (fun hc => h1 hc.1)
  · unfold tumorSizeDeltas
    by_cases h1 : jsTruthy l.tumorSize = true ∨ jsTruthy p.tumorSize = true
    · by_cases h2 : l.tumorSize = p.tumorSize
      · rw [if_pos h1, if_neg (not_not_intro h2)]
        exact iff_of_false (by simp) (fun hc => hc.2 h2)
      · rw [if_pos h1, if_pos h2]
        exact iff_of_true (by simp) ⟨h1, h2⟩
    · rw [if_neg h1]
      exact iff_of_false (by simp) (fun hc => h1 hc.1)
  · unfold marginDeltas
    by_cases h1 : jsTruthy l.margins = true ∨ jsTruthy p.margins = true
    · by_cases h2 : l.margins = p.margins
      · rw [if_pos h1, if_neg (not_not_intro h2)]
        exact iff_of_false (by simp) (fun hc => hc.2 h2)
      · rw [if_pos h1, if_pos h2]
        exact iff_of_true (by simp) ⟨h1, h2⟩
    · rw [if_neg h1]
      exact iff_of_false (by simp) (fun hc => h1 hc.1)
  · intro label a b
    unfold invasionFieldDeltas
    by_cases h1 : a = b
    · rw [if_pos h1]
      exact iff_of_false (by simp) (fun hc => hc.2 h1)
    · rw [if_neg h1]
      by_cases h2 : ¬ jsTruthy a = true ∧ ¬ jsTruthy b = true
      · rw [if_pos h2]
        refine iff_of_false (by simp) (fun hc => ?_)
        rcases hc.1 with ht | ht
        · exact h2.1 ht
        · exact h2.2 ht
      · rw [if_neg h2]
        refine iff_of_true (by simp) ⟨?_, h1⟩
        by_cases ha : jsTruthy a = true
        · exact Or.inl ha
        · by_cases hb : jsTruthy b = true
          · exact Or.inr hb
          · exact absurd ⟨ha, hb⟩ h2
  · intro marker
    simp only [ihcMarkerDelta]
    by_cases h1 : p.ihcPanel.lookup marker = l.ihcPanel.lookup marker
    · rw [if_pos h1]
      exact iff_of_false (by simp) (fun hc => hc.2 h1)
    · rw [if_neg h1]
      by_cases h2 : ¬ jsTruthy (p.ihcPanel.lookup marker) = true ∧
          ¬ jsTruthy (l.ihcPanel.lookup marker) = true
      · rw [if_pos h2]
        refine iff_of_false (by simp) (fun hc => ?_)
        rcases hc.1 with ht | ht
        · exact h2.1 ht
        · exact h2.2 ht
      · rw [if_neg h2]
        refine iff_of_true (by simp) ⟨?_, h1⟩
        by_cases ha : jsTruthy (p.ihcPanel.lookup marker) = true
        · exact Or.inl ha
        · by_cases hb : jsTruthy (l.ihcPanel.lookup marker) = true
          · exact Or.inr hb
          · exact absurd ⟨ha, hb⟩ h2

/-- C6 counterexample: grades `G2` and `g2` are equal under a
case-insensitive comparison, yet the generator, which compares exact
strings, still emits a Grade delta for them. -/
theorem case_only_grade_change_still_emits_delta :
    jsToLower "g2" = jsToLower "G2" ∧
    generateStructuralDeltas (some reportGradeLower) (some reportGradeUpper) =
      [{ marker := "Grade", old_value := some "G2", new_value := some "g2",
         trend := "stable" }] := by
  decide

/-- An IHC delta marker, which carries the `IHC · ` prefix, is never the
tumor-size marker. -/
theorem ihc_marker_ne_tumor (m : String) : ("IHC · " ++ m) ≠ "Tumor size" := by
  intro hEq
  have hdata := congrArg String.data hEq
  rw [String.data_append] at hdata
  have h1 : "IHC · ".data = ['I', 'H', 'C', ' ', '·', ' '] := rfl
  have h2 : "Tumor size".data = ['T', 'u', 'm', 'o', 'r', ' ', 's', 'i', 'z', 'e'] := rfl
  rw [h1, h2] at hdata
  simp at hdata

/-- A value that parses to a number is a present, non-empty string. -/
theorem numberFromString_some_truthy {v : Option String} {q : JsNumber}
    (h : numberFromString v = some q) : jsTruthy v = true := by
  cases v with
  | none => simp [numberFromString] at h
  | some s =>
    by_cases hs : s = ""
    · rw [hs] at h
      simp [numberFromString] at h
    · simp [jsTruthy, hs]

/-- The grade block contributes nothing to the tumor-size filter. -/
theorem filter_tumor_gradeDeltas (l p : NormalizedReport) :
    (gradeDeltas l p).filter (fun d => d.marker == "Tumor size") = [] := by
  have hb : (("Grade" : String) == "Tumor size") = false := by decide
  unfold gradeDeltas
  split
  · split
    · simp [List.filter, hb]
    · rfl
  · rfl

/-- The margins block contributes nothing to the tumor-size filter. -/
theorem filter_tumor_marginDeltas (l p : NormalizedReport) :
    (marginDeltas l p).filter (fun d => d.marker == "Tumor size") = [] := by
  have hb : (("Margins" : String) == "Tumor size") = false := by decide
  unfold marginDeltas
  split
  · split
    · simp [List.filter, hb]
    · rfl
  · rfl

/-- An invasion-field block whose label is not the tumor-size marker
contributes nothing to the tumor-size filter. -/
theorem filter_tumor_invasionFieldDeltas (label : String)
    (hlab : (label == "Tumor size") = false) (a b : Option String) :
    (invasionFieldDeltas label a b).filter (fun d => d.marker == "Tumor size") = [] := by
  unfold invasionFieldDeltas
  split
  · rfl
  · split
    · rfl
    · simp [List.filter, hlab]

/-- The IHC block contributes nothing to the tumor-size filter. -/
theorem filter_tumor_ihcDeltas (l p : NormalizedReport) :
    (ihcDeltas l p).filter (fun d => d.marker == "Tumor size") = [] := by
  unfold ihcDeltas
  induction (ihcMergedKeys p.ihcPanel l.ihcPanel).take 6 with
  | nil => rfl
  | cons k ks ih =>
    rw [List.flatMap_cons, List.filter_append, ih, List.append_nil]
    have hb : (("IHC · " ++ k) == "Tumor size") = false :=
      beq_eq_false_iff_ne.mpr (ihc_marker_ne_tumor k)
    simp only [ihcMarkerDelta]
    split
    · rfl
    · split
      · rfl
      · simp [List.filter, hb]

/-- C5 (amended): magnitude-field delta classification applies no
significance threshold: whenever both tumor sizes parse and the raw
strings differ, the emitted delta's trend is `worsening` on any strict
numeric increase and `improving` on any strict decrease, with `stable`
reserved for numerically equal values. -/
theorem tumor_size_delta_no_threshold (l p : NormalizedReport) (vl vp : JsNumber)
    (hl : numberFromString l.tumorSize = some vl)
    (hp : numberFromString p.tumorSize = some vp)
    (hne : l.tumorSize ≠ p.tumorSize) :
    (generateStructuralDeltas (some l) (some p)).filter
        (fun d => d.marker == "Tumor size") =
      [{ marker := "Tumor size"
         old_value := some (jsOrDefault p.tumorSize "Not measured")
         new_value := some (jsOrDefault l.tumorSize "Not measured")
         trend :=
           if jsNumLt vp vl then "worsening"
           else if jsNumLt vl vp then "improving" else "stable" }] := by
  have htruthy : jsTruthy l.tumorSize = true := numberFromString_some_truthy hl
  have hkeep : (("Tumor size" : String) == "Tumor size") = true := by decide
  simp only [generateStructuralDeltas, List.filter_append]
  rw [filter_tumor_gradeDeltas, filter_tumor_marginDeltas,
    filter_tumor_invasionFieldDeltas "Lymphovascular invasion" (by decide),
    filter_tumor_invasionFieldDeltas "Perineural invasion" (by decide),
    filter_tumor_invasionFieldDeltas "Nodal status" (by decide),
    filter_tumor_ihcDeltas]
  unfold tumorSizeDeltas
  rw [if_pos (Or.inl htruthy), if_pos hne]
  simp only [List.filter, hkeep, List.nil_append, List.append_nil]
  unfold sizeTrend
  rw [hl, hp]

/-- Witness for C5 at the sizes 110 versus 100. -/
theorem tumor_size_delta_no_threshold_witness :
    (generateStructuralDeltas (some reportSize110) (some reportSize100)).filter
        (fun d => d.marker == "Tumor size") =
      [{ marker := "Tumor size"
         old_value := some (jsOrDefault reportSize100.tumorSize "Not measured")
         new_value := some (jsOrDefault reportSize110.tumorSize "Not measured")
         trend :=
           if jsNumLt { mantissa := 100, scale := 0 } { mantissa := 110, scale := 0 } then
             "worsening"
           else if jsNumLt { mantissa := 110, scale := 0 } { mantissa := 100, scale := 0 } then
             "improving"
           else "stable" }] :=
  tumor_size_delta_no_threshold reportSize110 reportSize100
    { mantissa := 110, scale := 0 } { mantissa := 100, scale := 0 }
    (by decide) (by decide) (by decide)

/-- C5 counterexample: a ten percent increase, 100 to 110, is well inside
the claimed twenty percent threshold yet is classified `worsening`, not
`stable`. -/
theorem ten_percent_increase_classified_worsening :
    generateStructuralDeltas (some reportSize110) (some reportSize100) =
      [{ marker := "Tumor size", old_value := some "100", new_value := some "110",
         trend := "worsening" }] := by
  decide

/-- When both sort keys are numbers, the comparator answers `gt` exactly
when the inserted element's key is strictly smaller. -/
theorem compareReportsJs_gt_iff (dateParse : String → Option Int) {a b : NormalizedReport}
    (ha : (reportSortKey dateParse a).isSome = true)
    (hb : (reportSortKey dateParse b).isSome = true) :
    compareReportsJs dateParse a b = Ordering.gt ↔
      (reportSortKey dateParse a).getD 0 < (reportSortKey dateParse b).getD 0 := by
  rcases Option.isSome_iff_exists.mp ha with ⟨ka, hka⟩
  rcases Option.isSome_iff_exists.mp hb with ⟨kb, hkb⟩
  simp only [compareReportsJs, hka, hkb, Option.getD_some]
  constructor
  · intro h
    by_cases h1 : kb < ka
    · rw [if_pos h1] at h
      exact absurd h (by decide)
    · rw [if_neg h1] at h
      by_cases h2 : ka < kb
      · exact h2
      · rw [if_neg h2] at h
        exact absurd h (by decide)
  · intro h
    rw [if_neg (by omega), if_pos h]

/-- A non-`gt` comparator answer means the inserted element's key is at
least the other key. -/
theorem newestFirst_of_not_gt (dateParse : String → Option Int) {a b : NormalizedReport}
    (ha : (reportSortKey dateParse a).isSome = true)
    (hb : (reportSortKey dateParse b).isSome = true)
    (h : compareReportsJs dateParse a b ≠ Ordering.gt) : newestFirst dateParse a b := by
  have hiff := compareReportsJs_gt_iff dateParse ha hb
  have hlt := mt hiff.mpr h
  unfold newestFirst
  omega

/-- A `gt` comparator answer means the passed element's key dominates. -/
theorem newestFirst_of_gt (dateParse : String → Option Int) {a b : NormalizedReport}
    (ha : (reportSortKey dateParse a).isSome = true)
    (hb : (reportSortKey dateParse b).isSome = true)
    (h : compareReportsJs dateParse a b = Ordering.gt) : newestFirst dateParse b a := by
  have hlt := (compareReportsJs_gt_iff dateParse ha hb).mp h
  unfold newestFirst
  omega

/-- Inserting an element produces a permutation of consing it. -/
theorem insertReport_perm (dateParse : String → Option Int) (a : NormalizedReport) :
    ∀ l : List NormalizedReport, (insertReport dateParse a l).Perm (a :: l) := by
  intro l
  induction l with
  | nil => exact List.Perm.refl _
  | cons b t ih =>
    simp only [insertReport]
    split
    · exact (ih.cons b).trans (List.Perm.swap a b t)
    · exact List.Perm.refl _

/-- The sort returns a permutation of its input. -/
theorem sortReports_perm (dateParse : String → Option Int) :
    ∀ l : List NormalizedReport, (sortReports dateParse l).Perm l := by
  intro l
  induction l with
  | nil => exact List.Perm.refl _
  | cons a t ih =>
    simp only [sortReports]
    exact (insertReport_perm dateParse a _).trans (ih.cons a)

/-- Inserting into a sorted list keeps it sorted, provided every involved
sort key is a number. -/
theorem insertReport_sorted (dateParse : String → Option Int) (a : NormalizedReport)
    (ha : (reportSortKey dateParse a).isSome = true) :
    ∀ l : List NormalizedReport, (∀ r ∈ l, (reportSortKey dateParse r).isSome = true) →
      List.Sorted (newestFirst dateParse) l →
      List.Sorted (newestFirst dateParse) (insertReport dateParse a l) := by
  intro l
  induction l with
  | nil =>
    intro _ _
    simp [insertReport]
  | cons b t ih =>
    intro hl hs
    have hb := hl b (List.mem_cons_self b t)
    have ht := fun r hr => hl r (List.mem_cons_of_mem b hr)
    rw [List.sorted_cons] at hs
    simp only [insertReport]
    by_cases hcmp : compareReportsJs dateParse a b = Ordering.gt
    · rw [if_pos hcmp]
      rw [List.sorted_cons]
      refine ⟨?_, ih ht hs.2⟩
      intro x hx
      rcases List.mem_cons.mp ((insertReport_perm dateParse a t).mem_iff.mp hx) with hxa | hxt
      · rw [hxa]
        exact newestFirst_of_gt dateParse ha hb hcmp
      · exact hs.1 x hxt
    · rw [if_neg hcmp]
      have hab : newestFirst dateParse a b := newestFirst_of_not_gt dateParse ha hb hcmp
      rw [List.sorted_cons]
      refine ⟨?_, List.sorted_cons.mpr hs⟩
      intro x hx
      rcases List.mem_cons.mp hx with hxb | hxt
      · rw [hxb]
        exact hab
      · exact le_trans (hs.1 x hxt) hab

/-- The sorted output of `sortReports`, provided every sort key is a
number. -/
theorem sortReports_sorted (dateParse : String → Option Int) :
    ∀ l : List NormalizedReport, (∀ r ∈ l, (reportSortKey dateParse r).isSome = true) →
      List.Sorted (newestFirst dateParse) (sortReports dateParse l) := by
  intro l
  induction l with
  | nil =>
    intro _
    simp [sortReports]
  | cons a t ih =>
    intro hall
    have ha := hall a (List.mem_cons_self a t)
    have ht := fun r hr => hall r (List.mem_cons_of_mem a hr)
    have hmem : ∀ r ∈ sortReports dateParse t, (reportSortKey dateParse r).isSome = true :=
      fun r hr => ht r ((sortReports_perm dateParse t).mem_iff.mp hr)
    simp only [sortReports]
    exact insertReport_sorted dateParse a ha _ hmem (ih ht)

/-- C7 (amended): the sorting step always returns a permutation of its
input, and when every present date parses the output is ordered
newest-first with a missing or empty date treated as epoch zero; a
present but unparseable date, by contrast, compares equal to everything
(the comparator's `NaN` is treated as zero by the sort), so such a record
keeps its relative position instead of sorting last. -/
theorem sortReports_perm_and_sorted (dateParse : String → Option Int)
    (reports : List NormalizedReport)
    (hkeys : ∀ r ∈ reports, (reportSortKey dateParse r).isSome = true) :
    (sortReports dateParse reports).Perm reports ∧
    List.Sorted (newestFirst dateParse) (sortReports dateParse reports) :=
  ⟨sortReports_perm dateParse reports, sortReports_sorted dateParse reports hkeys⟩

/-- Witness for C7 at two dated reports that arrive oldest-first. -/
theorem sortReports_perm_and_sorted_witness :
    (sortReports dateParse0 [reportJanuary, reportJune]).Perm [reportJanuary, reportJune] ∧
    List.Sorted (newestFirst dateParse0)
      (sortReports dateParse0 [reportJanuary, reportJune]) :=
  sortReports_perm_and_sorted dateParse0 [reportJanuary, reportJune] (by decide)

/-- C7 counterexample: a record with a present but unparseable date does
not sort last as an epoch-zero record would: placed before a positively
dated report, it stays first, because its `NaN` key compares equal. -/
theorem unparseable_date_keeps_position :
    dateParse0 "not-a-date" = none ∧
    (0 : Int) < (reportSortKey dateParse0 reportJune).getD 0 ∧
    sortReports dateParse0 [reportBadDate, reportJune] = [reportBadDate, reportJune] ∧
    sortReports dateParse0 [reportBadDate, reportJune] ≠ [reportJune, reportBadDate] := by
  decide

end OncoSight
